import Mathlib

/-
  Verification of orttraining/orttraining/python/training/onnxblock/checkpoint_utils.py

  The file defines two thin Python wrappers around native bindings:

    def save_checkpoint(parameters, path_to_checkpoint):
        if parameters is None:
            raise RuntimeError("No checkpoint parameters provided.")
        trainable_params, non_trainable_params = parameters
        trainable_params = [param.SerializeToString() for param in trainable_params]
        non_trainable_params = [param.SerializeToString() for param in non_trainable_params]
        _internal_save_checkpoint(trainable_params, non_trainable_params, path_to_checkpoint)

    def load_checkpoint(model, path_to_checkpoint):
        parameters = _internal_load_checkpoint(path_to_checkpoint)

  We embed the Python dynamic semantics of these two functions over a small
  universe of Python values.  The native bindings are opaque: they are taken
  as function parameters (oracles), and each wrapper additionally returns the
  trace of native calls it performed, so that claims of the form "no native
  call occurs before the error" and "the native call receives exactly these
  arguments" are expressible.
-/

namespace CheckpointUtils

/-- Serialized protobuf payloads are byte strings, modelled as lists of bytes. -/
abbrev Bytes := List Nat

/-- A small universe of Python values: None, booleans, integers, protobuf
parameter messages (carrying the byte string their SerializeToString method
returns), tuples and lists. -/
inductive PyObj where
  | none : PyObj
  | bool (b : Bool) : PyObj
  | int (n : Int) : PyObj
  | param (serialized : Bytes) : PyObj
  | tuple (elems : List PyObj) : PyObj
  | list (elems : List PyObj) : PyObj

/-- Python exceptions that can arise in this layer, plus exceptions raised
inside the opaque native binding. -/
inductive PyException where
  | runtimeError (msg : String)
  | typeError (msg : String)
  | valueError (msg : String)
  | attributeError (msg : String)
  | nativeError (msg : String)
deriving DecidableEq

/-- The SerializeToString method: defined on protobuf parameter messages,
an AttributeError on every other object. -/
def PyObj.SerializeToString : PyObj → Except PyException Bytes
  | PyObj.param bs => Except.ok bs
  | _ => Except.error (PyException.attributeError "object has no attribute SerializeToString")

/-- The objects of our universe that Python iteration accepts: tuples and
lists, yielding their elements in order. -/
def PyObj.asIterable : PyObj → Option (List PyObj)
  | PyObj.tuple es => some es
  | PyObj.list es => some es
  | _ => Option.none

/-- Python unpacking `a, b = v`: iterate v and require exactly two items;
a TypeError on a non-iterable, a ValueError on the wrong number of items. -/
def unpack2 (v : PyObj) : Except PyException (PyObj × PyObj) :=
  match v.asIterable with
  | none => Except.error (PyException.typeError "cannot unpack non-iterable object")
  | some [a, b] => Except.ok (a, b)
  | some (_ :: _ :: _ :: _) => Except.error (PyException.valueError "too many values to unpack (expected 2)")
  | some _ => Except.error (PyException.valueError "not enough values to unpack (expected 2)")

/-- The list comprehension body: serialize the elements in order, stopping at
the first element whose SerializeToString raises. -/
def serializeList : List PyObj → Except PyException (List Bytes)
  | [] => Except.ok []
  | p :: rest =>
    match p.SerializeToString with
    | Except.error e => Except.error e
    | Except.ok b =>
      match serializeList rest with
      | Except.error e => Except.error e
      | Except.ok bs => Except.ok (b :: bs)

/-- The comprehension `[param.SerializeToString() for param in v]`: iterating
a non-iterable raises a TypeError, otherwise each element is serialized. -/
def serializeAll (v : PyObj) : Except PyException (List Bytes) :=
  match v.asIterable with
  | none => Except.error (PyException.typeError "object is not iterable")
  | some es => serializeList es

/-- One invocation of the native _internal_save_checkpoint binding, recording
its three arguments in order. -/
structure NativeSaveCall where
  trainable_params : List Bytes
  non_trainable_params : List Bytes
  path_to_checkpoint : String
deriving DecidableEq

/-- Behaviour of the opaque native _internal_save_checkpoint binding: given
the two byte-string lists and the path it either raises or returns a value. -/
abbrev SaveBinding := List Bytes → List Bytes → String → Except PyException PyObj

/-- Behaviour of the opaque native _internal_load_checkpoint binding: given
the path it either raises or returns a native checkpoint object. -/
abbrev LoadBinding := String → Except PyException PyObj

/-- Embedding of save_checkpoint.  The statements of the Python body are
mirrored in order: the None guard, the unpacking of parameters, the two
serializing comprehensions, then the native call.  The result pairs the
outcome of the Python call (an exception, or the value the function returns)
with the trace of native save calls performed. -/
def save_checkpoint (native : SaveBinding) (parameters : PyObj)
    (path_to_checkpoint : String) :
    Except PyException PyObj × List NativeSaveCall :=
  match parameters with
  | PyObj.none =>
    (Except.error (PyException.runtimeError "No checkpoint parameters provided."), [])
  | _ =>
    match unpack2 parameters with
    | Except.error e => (Except.error e, [])
    | Except.ok (tp, ntp) =>
      match serializeAll tp with
      | Except.error e => (Except.error e, [])
      | Except.ok trainable_params =>
        match serializeAll ntp with
        | Except.error e => (Except.error e, [])
        | Except.ok non_trainable_params =>
          match native trainable_params non_trainable_params path_to_checkpoint with
          | Except.error e =>
            (Except.error e,
             [NativeSaveCall.mk trainable_params non_trainable_params path_to_checkpoint])
          | Except.ok _ =>
            (Except.ok PyObj.none,
             [NativeSaveCall.mk trainable_params non_trainable_params path_to_checkpoint])

/-- Embedding of load_checkpoint.  The body binds the native result to a local
and does nothing else, so the Python function returns None on success and the
model is never touched.  The result triple is: the outcome of the Python call,
the trace of native load calls (the paths passed), and the model object after
the call. -/
def load_checkpoint (native : LoadBinding) (model : PyObj)
    (path_to_checkpoint : String) :
    Except PyException PyObj × List String × PyObj :=
  match native path_to_checkpoint with
  | Except.error e => (Except.error e, [path_to_checkpoint], model)
  | Except.ok _parameters => (Except.ok PyObj.none, [path_to_checkpoint], model)

/-- A parameters argument of the well-formed shape: a pair of lists of
protobuf parameter messages, the trainable ones carrying the byte strings
tps and the non-trainable ones the byte strings ntps. -/
def mkParams (tps ntps : List Bytes) : PyObj :=
  PyObj.tuple [PyObj.list (tps.map PyObj.param), PyObj.list (ntps.map PyObj.param)]

/-- Serializing a list of parameter messages succeeds and yields their byte
strings in order. -/
theorem serializeList_param_map (bs : List Bytes) :
    serializeList (bs.map PyObj.param) = Except.ok bs := by
  induction bs with
  | nil => rfl
  | cons b rest ih => simp [serializeList, PyObj.SerializeToString, ih]

/-- The serializing comprehension on a Python list of parameter messages
succeeds and yields their byte strings in order. -/
theorem serializeAll_param_list (bs : List Bytes) :
    serializeAll (PyObj.list (bs.map PyObj.param)) = Except.ok bs := by
  simp [serializeAll, PyObj.asIterable, serializeList_param_map]

/-- Full evaluation of save_checkpoint on a well-formed parameters pair:
the native binding is called exactly once, with the serialized trainable
list, the serialized non-trainable list and the path in that order; its
exception, if any, is returned unchanged, and on native success the Python
function returns None. -/
theorem save_checkpoint_mkParams (native : SaveBinding) (tps ntps : List Bytes)
    (path : String) :
    save_checkpoint native (mkParams tps ntps) path
      = ((native tps ntps path).map (fun _ => PyObj.none),
         [NativeSaveCall.mk tps ntps path]) := by
  unfold save_checkpoint mkParams
  simp [unpack2, PyObj.asIterable, serializeAll_param_list]
  cases h : native tps ntps path <;> simp [Except.map, h]

/-- Claim C1: for every path and every native save binding, calling
save_checkpoint with parameters None raises the RuntimeError with message
"No checkpoint parameters provided." and performs no native save call. -/
theorem save_checkpoint_none_raises_before_native
    (native : SaveBinding) (path : String) :
    save_checkpoint native PyObj.none path
      = (Except.error (PyException.runtimeError "No checkpoint parameters provided."), []) :=
  rfl

/-- Claim C2: for every non-None parameters value that unpacks into a pair of
lists of protobuf parameter messages, save_checkpoint serializes every element
of both lists via SerializeToString and performs exactly one native save call,
whose arguments are the trainable byte strings, the non-trainable byte strings
and the path, in that order. -/
theorem save_checkpoint_serializes_and_calls_native
    (native : SaveBinding) (tps ntps : List Bytes) (path : String) :
    serializeAll (PyObj.list (tps.map PyObj.param)) = Except.ok tps
    ∧ serializeAll (PyObj.list (ntps.map PyObj.param)) = Except.ok ntps
    ∧ (save_checkpoint native (mkParams tps ntps) path).2
        = [NativeSaveCall.mk tps ntps path] := by
  refine ⟨serializeAll_param_list tps, serializeAll_param_list ntps, ?_⟩
  rw [save_checkpoint_mkParams]

/-- Claim C3: for every model, path and native load binding, load_checkpoint
discards the value the native call returned (its own result carries None in
place of the native checkpoint object) and leaves the passed-in model
entirely unchanged. -/
theorem load_checkpoint_discards_and_leaves_model
    (native : LoadBinding) (model : PyObj) (path : String) :
    (load_checkpoint native model path).2.2 = model
    ∧ (load_checkpoint native model path).1 = (native path).map (fun _ => PyObj.none) := by
  unfold load_checkpoint
  cases h : native path <;> simp [Except.map]

/-- Claim C4 counterexample: with parameters the integer 0 (which is not
None) and a native binding that always succeeds, save_checkpoint itself
raises a TypeError at the unpacking statement before any native call: the
failure is not the missing-parameters RuntimeError and does not originate in
the native binding, so the None check is not the only failure produced at
this layer. -/
theorem save_checkpoint_guard_counterexample :
    (save_checkpoint (fun _ _ _ => Except.ok PyObj.none) (PyObj.int 0) "ckpt").1
      = Except.error (PyException.typeError "cannot unpack non-iterable object")
    ∧ (save_checkpoint (fun _ _ _ => Except.ok PyObj.none) (PyObj.int 0) "ckpt").2 = []
    ∧ PyException.typeError "cannot unpack non-iterable object"
        ≠ PyException.runtimeError "No checkpoint parameters provided." :=
  ⟨rfl, rfl, fun h => PyException.noConfusion h⟩

/-- Claim C4 amended: for every parameters value that unpacks into a pair of
lists of parameter messages, save_checkpoint itself raises no error before
delegating: it reaches the native call, and an exception of the native
binding is surfaced unchanged, with no additional handling, retry or
translation at this layer. -/
theorem save_checkpoint_wellformed_errors_from_native
    (native : SaveBinding) (tps ntps : List Bytes) (path : String)
    (e : PyException) (h : native tps ntps path = Except.error e) :
    save_checkpoint native (mkParams tps ntps) path
      = (Except.error e, [NativeSaveCall.mk tps ntps path]) := by
  rw [save_checkpoint_mkParams, h]
  rfl

/-- Witness for the amended Claim C4 at a concrete input: a native binding
that fails with a native error, one trainable and one non-trainable
parameter. -/
theorem save_checkpoint_wellformed_errors_from_native_witness :
    (fun (_ : List Bytes) (_ : List Bytes) (_ : String) =>
        (Except.error (PyException.nativeError "disk full") : Except PyException PyObj))
        [[1]] [[2]] "ckpt"
      = Except.error (PyException.nativeError "disk full")
    ∧ save_checkpoint (fun _ _ _ => Except.error (PyException.nativeError "disk full"))
        (mkParams [[1]] [[2]]) "ckpt"
      = (Except.error (PyException.nativeError "disk full"),
         [NativeSaveCall.mk [[1]] [[2]] "ckpt"]) :=
  ⟨rfl,
   save_checkpoint_wellformed_errors_from_native
     (fun _ _ _ => Except.error (PyException.nativeError "disk full"))
     [[1]] [[2]] "ckpt" (PyException.nativeError "disk full") rfl⟩

/-- Claim C5: any exception raised by the native load binding propagates out
of load_checkpoint unchanged, after the one native call, with the model left
unchanged: no handling, retry or translation is added. -/
theorem load_checkpoint_propagates_native_error
    (native : LoadBinding) (model : PyObj) (path : String)
    (e : PyException) (h : native path = Except.error e) :
    load_checkpoint native model path = (Except.error e, [path], model) := by
  unfold load_checkpoint
  rw [h]

/-- Witness for Claim C5 at a concrete input: a native binding that raises a
corrupt-checkpoint error. -/
theorem load_checkpoint_propagates_native_error_witness :
    (fun (_ : String) =>
        (Except.error (PyException.nativeError "corrupt checkpoint") : Except PyException PyObj))
        "ckpt"
      = Except.error (PyException.nativeError "corrupt checkpoint")
    ∧ load_checkpoint (fun _ => Except.error (PyException.nativeError "corrupt checkpoint"))
        (PyObj.int 3) "ckpt"
      = (Except.error (PyException.nativeError "corrupt checkpoint"), ["ckpt"], PyObj.int 3) :=
  ⟨rfl,
   load_checkpoint_propagates_native_error
     (fun _ => Except.error (PyException.nativeError "corrupt checkpoint"))
     (PyObj.int 3) "ckpt" (PyException.nativeError "corrupt checkpoint") rfl⟩

/-- Claim C6: whenever save_checkpoint succeeds, the value it returns to the
caller is None, whatever the native call produced. -/
theorem save_checkpoint_success_returns_none
    (native : SaveBinding) (parameters : PyObj) (path : String) (r : PyObj)
    (h : (save_checkpoint native parameters path).1 = Except.ok r) :
    r = PyObj.none := by
  unfold save_checkpoint at h
  split at h
  · simp at h
  · rcases hu : unpack2 parameters with e | ⟨tp, ntp⟩ <;> rw [hu] at h <;> dsimp only at h
    · simp at h
    · rcases hs : serializeAll tp with e | tr <;> rw [hs] at h <;> dsimp only at h
      · simp at h
      · rcases hn : serializeAll ntp with e | ntr <;> rw [hn] at h <;> dsimp only at h
        · simp at h
        · rcases hc : native tr ntr path with e | v <;> rw [hc] at h <;> dsimp only at h
          · simp at h
          · simp at h
            exact h.symm

/-- Witness for Claim C6 at a concrete input: a native binding that returns
the integer 7; save_checkpoint still returns None. -/
theorem save_checkpoint_success_returns_none_witness :
    (save_checkpoint (fun _ _ _ => Except.ok (PyObj.int 7)) (mkParams [[1]] []) "ckpt").1
      = Except.ok PyObj.none
    ∧ PyObj.none = PyObj.none :=
  ⟨rfl,
   save_checkpoint_success_returns_none
     (fun _ _ _ => Except.ok (PyObj.int 7)) (mkParams [[1]] []) "ckpt" PyObj.none rfl⟩

/-- Claim C7: for every model and path on which the native load call
succeeds, load_checkpoint returns None, not the checkpoint object the native
call produced, and performs exactly that one native call. -/
theorem load_checkpoint_returns_none_on_success
    (native : LoadBinding) (model : PyObj) (path : String) (c : PyObj)
    (h : native path = Except.ok c) :
    load_checkpoint native model path = (Except.ok PyObj.none, [path], model) := by
  unfold load_checkpoint
  rw [h]

/-- Witness for Claim C7 at a concrete input: a native binding that returns a
checkpoint object. -/
theorem load_checkpoint_returns_none_on_success_witness :
    (fun (_ : String) => (Except.ok (PyObj.param [9]) : Except PyException PyObj)) "ckpt"
      = Except.ok (PyObj.param [9])
    ∧ load_checkpoint (fun _ => Except.ok (PyObj.param [9])) (PyObj.int 3) "ckpt"
      = (Except.ok PyObj.none, ["ckpt"], PyObj.int 3) :=
  ⟨rfl,
   load_checkpoint_returns_none_on_success
     (fun _ => Except.ok (PyObj.param [9])) (PyObj.int 3) "ckpt" (PyObj.param [9]) rfl⟩

/-- Claim C8: save_checkpoint preserves the length and element order of both
parameter lists: the native call receives one byte string per input
parameter, at the same index, equal to that parameter's serialization. -/
theorem save_checkpoint_preserves_list_structure
    (native : SaveBinding) (tps ntps : List Bytes) (path : String) (i j : Nat)
    (hi : i < tps.length) (hj : j < ntps.length) :
    (save_checkpoint native (mkParams tps ntps) path).2
        = [NativeSaveCall.mk tps ntps path]
    ∧ tps.length = (tps.map PyObj.param).length
    ∧ ntps.length = (ntps.map PyObj.param).length
    ∧ (tps.map PyObj.param).get? i = some (PyObj.param (tps.get ⟨i, hi⟩))
    ∧ PyObj.SerializeToString (PyObj.param (tps.get ⟨i, hi⟩)) = Except.ok (tps.get ⟨i, hi⟩)
    ∧ tps.get? i = some (tps.get ⟨i, hi⟩)
    ∧ (ntps.map PyObj.param).get? j = some (PyObj.param (ntps.get ⟨j, hj⟩))
    ∧ PyObj.SerializeToString (PyObj.param (ntps.get ⟨j, hj⟩)) = Except.ok (ntps.get ⟨j, hj⟩)
    ∧ ntps.get? j = some (ntps.get ⟨j, hj⟩) := by
  refine ⟨?_, ?_, ?_, ?_, rfl, ?_, ?_, rfl, ?_⟩
  · rw [save_checkpoint_mkParams]
  · simp
  · simp
  · simp [List.get?_map, List.get?_eq_get hi]
  · simp [List.get?_eq_get hi]
  · simp [List.get?_map, List.get?_eq_get hj]
  · simp [List.get?_eq_get hj]

/-- Witness for Claim C8 at a concrete input: two trainable parameters, one
non-trainable parameter, indices 1 and 0. -/
theorem save_checkpoint_preserves_list_structure_witness :
    (1 < ([[1], [2]] : List Bytes).length ∧ 0 < ([[3]] : List Bytes).length)
    ∧ (save_checkpoint (fun _ _ _ => Except.ok PyObj.none)
          (mkParams [[1], [2]] [[3]]) "ckpt").2
        = [NativeSaveCall.mk [[1], [2]] [[3]] "ckpt"] := by
  refine ⟨⟨by decide, by decide⟩, ?_⟩
  exact (save_checkpoint_preserves_list_structure
    (fun _ _ _ => Except.ok PyObj.none) [[1], [2]] [[3]] "ckpt" 1 0
    (by decide) (by decide)).1

/-- Claim C9: load_checkpoint does not depend on its model argument: for any
two models and the same path and native binding, the outcome and the native
call trace coincide (two-run noninterference). -/
theorem load_checkpoint_model_noninterference
    (native : LoadBinding) (model1 model2 : PyObj) (path : String) :
    (load_checkpoint native model1 path).1 = (load_checkpoint native model2 path).1
    ∧ (load_checkpoint native model1 path).2.1 = (load_checkpoint native model2 path).2.1 := by
  unfold load_checkpoint
  cases native path <;> exact ⟨rfl, rfl⟩

end CheckpointUtils
